import Mathlib

/-!
Verification of the credential and session lifecycle of the ERP backend.

The development embeds the authentication core of the repository — the
handlers in controllers/handlers/auth_handlers/auth.go, the SQL-backed
stores in controllers/handlers/auth_handlers/store.go and the data model
in models/user.go and models/role.go — as pure Lean functions over an
explicit database state, and proves the lifecycle properties stated in
the specification about them.

The database is modelled as the two tables the auth core touches (users
and roles); each store method becomes a total function over that state,
with the store errors the Go code distinguishes.  The external bcrypt
primitive is modelled as a deterministic injective encoding with the
verify function succeeding exactly on the hashed password.  The token
issuer called by Login (erp/controllers/utils.GenerateJWT) does not
appear among the sources, so it is modelled from the specification.
-/

namespace ERP

/-- Role record: models.Role (models/role.go). -/
structure Role where
  id : Nat
  roleName : String
  permissions : String
deriving DecidableEq

/-- One row of the users table as read by the controllers store, with the
columns id, name, email, password (nullable), role_id, department and
needs_new_pass used by GetUserByEmail (store.go line 41). -/
structure UserRow where
  id : Nat
  name : String
  email : String
  password : Option String
  roleId : Nat
  department : String
  needsNewPassCol : Bool
deriving DecidableEq

/-- models.User (models/user.go, controllers revision) as produced by
GetUserByEmail: Role is the embedded role struct. -/
structure User where
  id : Nat
  name : String
  email : String
  password : String
  role : Role
  department : String
  needsNewPass : Bool
deriving DecidableEq

/-- The database state visible to the auth store: the users and roles tables. -/
structure DBState where
  users : List UserRow
  roles : List Role
deriving DecidableEq

/-- Store-level errors distinguished by the Go code: ErrUserNotFound
(store.go line 11) and the role-not-found error of DBRoleStore
(store.go lines 79 and 92). -/
inductive StoreError where
  | userNotFound
  | roleNotFound
deriving DecidableEq

/-- Reading a sql.NullString as a Go string: the String field is the empty
string when the column is NULL. -/
def nullStringValue : Option String → String
  | some s => s
  | none => ""

/-- DBRoleStore.GetRoleByID (store.go lines 74-84). -/
def GetRoleByID (roles : List Role) (id : Nat) : Except StoreError Role :=
  match roles.find? (fun r => r.id == id) with
  | some r => Except.ok r
  | none => Except.error StoreError.roleNotFound

/-- DBRoleStore.GetRoleByName (store.go lines 87-97). -/
def GetRoleByName (roles : List Role) (roleName : String) : Except StoreError Role :=
  match roles.find? (fun r => r.roleName == roleName) with
  | some r => Except.ok r
  | none => Except.error StoreError.roleNotFound

/-- The models.User value GetUserByEmail builds from a scanned row: Scan
first fills every field, NeedsNewPass included, from the row (store.go
lines 41-42), then lines 50-51 overwrite Password with the NullString
value and NeedsNewPass with the emptiness of the password column. -/
def mkUser (row : UserRow) (role : Role) : User :=
  let scanned : User :=
    { id := row.id, name := row.name, email := row.email,
      password := nullStringValue row.password, role := role,
      department := row.department, needsNewPass := row.needsNewPassCol }
  { scanned with
    password := nullStringValue row.password,
    needsNewPass := row.password.isNone || (nullStringValue row.password == "") }

/-- DBUserStore.GetUserByEmail (store.go lines 35-60): selects the row by
email, derives the User from it, then resolves the role by id; no row
gives ErrUserNotFound, a missing role gives the role-not-found error. -/
def GetUserByEmail (st : DBState) (email : String) : Except StoreError User :=
  match st.users.find? (fun row => row.email == email) with
  | none => Except.error StoreError.userNotFound
  | some row =>
    match GetRoleByID st.roles row.roleId with
    | Except.error e => Except.error e
    | Except.ok role => Except.ok (mkUser row role)

/-- Value of the needs_new_pass column of a freshly inserted row: the
INSERT of CreateUser (store.go line 28) omits both the password and the
needs_new_pass columns, so the password is NULL and needs_new_pass takes
the schema default, which is not among the sources.  Its value is
irrelevant to every read (proved for C9). -/
def dbDefaultNeedsNewPass : Bool := true

/-- Fresh SERIAL primary key for an insert. -/
def freshId (st : DBState) : Nat := st.users.length

/-- The row inserted by CreateUser: name, email, role_id and department are
set; the password column is left NULL. -/
def newUserRow (st : DBState) (name email : String) (role : Role)
    (department : String) : UserRow :=
  { id := freshId st, name := name, email := email, password := none,
    roleId := role.id, department := department,
    needsNewPassCol := dbDefaultNeedsNewPass }

/-- DBUserStore.CreateUser (store.go lines 20-31): resolves the role name
first and fails with its error when unresolvable, then inserts the row
with a NULL password. -/
def CreateUser (st : DBState) (name email roleName department : String) :
    Except StoreError DBState :=
  match GetRoleByName st.roles roleName with
  | Except.error e => Except.error e
  | Except.ok role =>
    Except.ok { st with users := st.users ++ [newUserRow st name email role department] }

/-- Per-row effect of the UPDATE of UpdatePassword: rows whose email
matches get the new password value. -/
def updRow (email hashedPassword : String) (row : UserRow) : UserRow :=
  if row.email == email then { row with password := some hashedPassword } else row

/-- DBUserStore.UpdatePassword (store.go lines 63-66). -/
def UpdatePassword (st : DBState) (email hashedPassword : String) : DBState :=
  { st with users := st.users.map (updRow email hashedPassword) }

/-- Model of the external hashing primitive bcrypt.GenerateFromPassword
(golang.org/x/crypto/bcrypt, called in auth.go line 112): a
deterministic injective encoding whose output is never the empty string;
salt and cost factor are abstracted away. -/
def bcryptGenerateFromPassword (password : String) : String :=
  "$2a$10$" ++ password

/-- Model of bcrypt.CompareHashAndPassword (auth.go line 157): the
verification succeeds exactly when the hash was generated from the given
password. -/
def bcryptCompareHashAndPassword (hash password : String) : Bool :=
  hash == bcryptGenerateFromPassword password

/-- Claim set of an issued session token. -/
structure JwtToken where
  email : String
  role : String
  exp : Nat
deriving DecidableEq

/-- Modelled from the spec: the token issuer erp/controllers/utils.GenerateJWT
called by Login (auth.go line 164) is absent from the sources — only an
earlier one-argument revision, utils/jwt.go, is present.  Per the spec
the issuer mints a token carrying the claims email and roleName with a
fixed 24-hour expiration measured from the issue time. -/
def GenerateJWT (now : Nat) (email roleName : String) : JwtToken :=
  { email := email, role := roleName, exp := now + 24 * 60 * 60 }

/-- models.SignUpRequest (models/user.go, controllers revision). -/
structure SignUpRequest where
  name : String
  email : String
  role : String
  department : String
deriving DecidableEq

/-- models.SetNewPasswordRequest (models/user.go). -/
structure SetNewPasswordRequest where
  email : String
  newPassword : String
deriving DecidableEq

/-- models.LoginCredentials (models/user.go). -/
structure LoginCredentials where
  email : String
  password : String
deriving DecidableEq

/-- Outcome of CheckUser: an HTTP error response, or the 200 body carrying
the needsNewPass flag. -/
inductive CheckUserResult where
  | httpError (status : Nat) (msg : String)
  | ok (needsNewPass : Bool)
deriving DecidableEq

/-- Outcome of Login: an HTTP error response, or the 200 body carrying the
token together with the account name and role name. -/
inductive LoginResult where
  | httpError (status : Nat) (msg : String)
  | ok (token : JwtToken) (name : String) (role : String)
deriving DecidableEq

/-- AuthHandlers.SignUp (auth.go lines 32-61): a successful lookup means the
user already exists (409); a lookup error other than ErrUserNotFound is a
server error (500); otherwise the user is created.  Request decoding is
outside the model: the handler receives the decoded request. -/
def SignUp (st : DBState) (req : SignUpRequest) : (Nat × String) × DBState :=
  match GetUserByEmail st req.email with
  | Except.ok _ => ((409, "User already exists"), st)
  | Except.error StoreError.roleNotFound => ((500, "Server error"), st)
  | Except.error StoreError.userNotFound =>
    match CreateUser st req.name req.email req.role req.department with
    | Except.error _ => ((500, "Could not create user"), st)
    | Except.ok st1 => ((201, "User created successfully"), st1)

/-- AuthHandlers.CheckUser (auth.go lines 64-86): read-only, returns the
needsNewPass flag of the account. -/
def CheckUser (st : DBState) (email : String) : CheckUserResult :=
  match GetUserByEmail st email with
  | Except.error StoreError.userNotFound => CheckUserResult.httpError 404 "User not found"
  | Except.error StoreError.roleNotFound => CheckUserResult.httpError 500 "Server error"
  | Except.ok u => CheckUserResult.ok u.needsNewPass

/-- AuthHandlers.SetNewPassword (auth.go lines 89-130): any lookup error is
mapped to 404 (this handler does not test for ErrUserNotFound
specifically); an account that does not need a new password is a 409
conflict; otherwise the bcrypt hash of the new password is stored. -/
def SetNewPassword (st : DBState) (req : SetNewPasswordRequest) :
    (Nat × String) × DBState :=
  match GetUserByEmail st req.email with
  | Except.error _ => ((404, "User not found"), st)
  | Except.ok u =>
    if !u.needsNewPass then
      ((409, "Password already set. Use login instead."), st)
    else
      ((200, "Password set successfully"),
        UpdatePassword st req.email (bcryptGenerateFromPassword req.newPassword))

/-- AuthHandlers.Login (auth.go lines 133-177): read-only.  An empty request
password is rejected as invalid input (400) together with decode
failures; a missing account is 404; a pending account is 401; a failed
hash comparison is 401; on success the token is issued at time now and
returned with the account name and role name. -/
def Login (st : DBState) (now : Nat) (credentials : LoginCredentials) : LoginResult :=
  if credentials.password == "" then LoginResult.httpError 400 "Invalid input"
  else
    match GetUserByEmail st credentials.email with
    | Except.error StoreError.userNotFound => LoginResult.httpError 404 "User not found"
    | Except.error StoreError.roleNotFound => LoginResult.httpError 500 "Server error"
    | Except.ok u =>
      if u.needsNewPass then LoginResult.httpError 401 "User needs to set a new password"
      else if bcryptCompareHashAndPassword u.password credentials.password then
        LoginResult.ok (GenerateJWT now u.email u.role.roleName) u.name u.role.roleName
      else LoginResult.httpError 401 "Invalid password"

/-- One request to the four auth endpoints registered in RegisterRoutes
(auth.go lines 24-29). -/
inductive Op where
  | signUp (req : SignUpRequest)
  | checkUser (email : String)
  | setNewPassword (req : SetNewPasswordRequest)
  | login (now : Nat) (credentials : LoginCredentials)

/-- Database state after handling one request; CheckUser and Login issue no
writes. -/
def stepState (st : DBState) : Op → DBState
  | Op.signUp req => (SignUp st req).2
  | Op.checkUser _ => st
  | Op.setNewPassword req => (SetNewPassword st req).2
  | Op.login _ _ => st

/-- An email is ACTIVE in a state when GetUserByEmail succeeds and reports
that no new password is needed. -/
def Active (st : DBState) (email : String) : Bool :=
  match GetUserByEmail st email with
  | Except.ok u => !u.needsNewPass
  | Except.error _ => false

/-- Rewrite of the persisted needs_new_pass column of every row by an
arbitrary function, used to state that reads ignore the column. -/
def setNeedsNewPassCols (f : UserRow → Bool) (st : DBState) : DBState :=
  { st with users := st.users.map (fun r => { r with needsNewPassCol := f r }) }

/-! ### Concrete states used to exercise the theorems -/

/-- Reference role used by the concrete test states. -/
def employeeRole : Role := { id := 1, roleName := "Employee", permissions := "basic" }

def aliceEmail : String := "a@x.com"

def bobEmail : String := "b@x.com"

def secretPw : String := "secret1"

def wrongPw : String := "wrong"

def emptyPw : String := ""

/-- A freshly signed-up account: password column NULL. -/
def aliceRow : UserRow :=
  { id := 1, name := "Alice", email := aliceEmail, password := none,
    roleId := 1, department := "Sales", needsNewPassCol := true }

def stPending : DBState := { users := [aliceRow], roles := [employeeRole] }

def aliceUser : User := mkUser aliceRow employeeRole

/-- An ACTIVE account holding the bcrypt hash of secretPw. -/
def bobRow : UserRow :=
  { id := 2, name := "Bob", email := bobEmail,
    password := some (bcryptGenerateFromPassword secretPw),
    roleId := 1, department := "HR", needsNewPassCol := false }

def stActive : DBState := { users := [bobRow], roles := [employeeRole] }

def bobUser : User := mkUser bobRow employeeRole

/-- A state with no registered users. -/
def stEmpty : DBState := { users := [], roles := [employeeRole] }

/-- A sign-up request for an unregistered email with a resolvable role. -/
def aliceSignUpReq : SignUpRequest :=
  { name := "Alice", email := aliceEmail, role := "Employee", department := "Sales" }

/-! ### Helper lemmas about the store -/

theorem string_append_left_cancel {s t u : String} (h : s ++ t = s ++ u) : t = u := by
  have hd : s.data ++ t.data = s.data ++ u.data := by
    have hc := congrArg String.data h
    simpa [String.data_append] using hc
  have hdu : t.data = u.data := List.append_cancel_left hd
  cases t; cases u; simp_all

theorem bcryptGenerateFromPassword_ne_empty (p : String) :
    bcryptGenerateFromPassword p ≠ "" := by
  intro h
  have hl := congrArg String.length h
  rw [bcryptGenerateFromPassword] at hl
  rw [String.length_append] at hl
  have h7 : ("$2a$10$" : String).length = 7 := rfl
  rw [h7] at hl
  simp at hl

theorem bcryptGenerateFromPassword_injective {p q : String}
    (h : bcryptGenerateFromPassword p = bcryptGenerateFromPassword q) : p = q := by
  unfold bcryptGenerateFromPassword at h
  exact string_append_left_cancel h

theorem bcryptCompare_gen_self (p : String) :
    bcryptCompareHashAndPassword (bcryptGenerateFromPassword p) p = true := by
  unfold bcryptCompareHashAndPassword
  exact beq_self_eq_true _

theorem bcryptCompare_gen_ne {p q : String} (h : q ≠ p) :
    bcryptCompareHashAndPassword (bcryptGenerateFromPassword p) q = false := by
  unfold bcryptCompareHashAndPassword
  apply beq_eq_false_iff_ne.mpr
  intro he
  exact h (bcryptGenerateFromPassword_injective he).symm

theorem updRow_email (e h : String) (r : UserRow) : (updRow e h r).email = r.email := by
  unfold updRow
  split <;> rfl

theorem updRow_self {e : String} (h : String) {r : UserRow}
    (hm : (r.email == e) = true) : updRow e h r = { r with password := some h } := by
  unfold updRow
  simp [hm]

theorem updRow_other {e : String} (h : String) {r : UserRow}
    (hm : (r.email == e) = false) : updRow e h r = r := by
  unfold updRow
  simp [hm]

theorem find?_users_map_updRow (e h E : String) (l : List UserRow) :
    (l.map (updRow e h)).find? (fun r => r.email == E)
      = (l.find? (fun r => r.email == E)).map (updRow e h) := by
  rw [List.find?_map]
  have hp : ((fun r : UserRow => r.email == E) ∘ updRow e h)
      = fun r : UserRow => r.email == E := by
    funext r
    simp [Function.comp, updRow_email]
  rw [hp]

theorem getUserByEmail_ok_iff {st : DBState} {E : String} {u : User} :
    GetUserByEmail st E = Except.ok u ↔
      ∃ row role, st.users.find? (fun r => r.email == E) = some row ∧
        GetRoleByID st.roles row.roleId = Except.ok role ∧ u = mkUser row role := by
  unfold GetUserByEmail
  cases hf : st.users.find? (fun r => r.email == E) with
  | none => simp [hf]
  | some row =>
    cases hr : GetRoleByID st.roles row.roleId with
    | error e => simp [hf, hr]
    | ok role => simp [hf, hr, eq_comm]

theorem getUserByEmail_userNotFound_iff {st : DBState} {E : String} :
    GetUserByEmail st E = Except.error StoreError.userNotFound ↔
      st.users.find? (fun r => r.email == E) = none := by
  unfold GetUserByEmail
  cases hf : st.users.find? (fun r => r.email == E) with
  | none => simp [hf]
  | some row =>
    cases hr : GetRoleByID st.roles row.roleId with
    | ok role => simp [hf, hr]
    | error e =>
      cases e with
      | roleNotFound => simp [hf, hr]
      | userNotFound =>
        exfalso
        unfold GetRoleByID at hr
        cases hq : st.roles.find? (fun r => r.id == row.roleId) <;> simp [hq] at hr

theorem getUserByEmail_of_find {st : DBState} {E : String} {row : UserRow} {role : Role}
    (hf : st.users.find? (fun r => r.email == E) = some row)
    (hr : GetRoleByID st.roles row.roleId = Except.ok role) :
    GetUserByEmail st E = Except.ok (mkUser row role) := by
  unfold GetUserByEmail
  simp [hf, hr]

theorem getUser_updatePassword_self {st : DBState} {E : String} {u : User}
    (hget : GetUserByEmail st E = Except.ok u) (h : String) :
    GetUserByEmail (UpdatePassword st E h) E =
      Except.ok { u with password := h, needsNewPass := (h == "") } := by
  rcases getUserByEmail_ok_iff.mp hget with ⟨row, role, hf, hr, hu⟩
  have hmail0 := List.find?_some hf
  have hmail : (row.email == E) = true := hmail0
  have hf1 : ((st.users.map (updRow E h)).find? (fun r => r.email == E))
      = some { row with password := some h } := by
    rw [find?_users_map_updRow, hf]
    simp [updRow_self h hmail]
  have hres : GetUserByEmail (UpdatePassword st E h) E
      = Except.ok (mkUser { row with password := some h } role) :=
    getUserByEmail_of_find hf1 hr
  rw [hres, hu]
  rfl

theorem getUser_updatePassword_other {st : DBState} {e E : String} (h : String)
    (hne : e ≠ E) :
    GetUserByEmail (UpdatePassword st e h) E = GetUserByEmail st E := by
  unfold GetUserByEmail UpdatePassword
  simp only []
  rw [find?_users_map_updRow]
  cases hf : st.users.find? (fun r => r.email == E) with
  | none => simp [hf]
  | some row =>
    have hm0 := List.find?_some hf
    have hm : (row.email == E) = true := hm0
    have hrow : updRow e h row = row := by
      apply updRow_other
      have hre : row.email = E := by simpa using hm
      rw [hre]
      exact beq_eq_false_iff_ne.mpr (Ne.symm hne)
    simp [hf, hrow]

theorem getUser_append_of_found {st : DBState} {E : String} {u : User}
    (rows : List UserRow) (hget : GetUserByEmail st E = Except.ok u) :
    GetUserByEmail { st with users := st.users ++ rows } E = Except.ok u := by
  rcases getUserByEmail_ok_iff.mp hget with ⟨row, role, hf, hr, hu⟩
  have hf1 : (st.users ++ rows).find? (fun r => r.email == E) = some row := by
    rw [List.find?_append, hf]
    rfl
  rw [hu]
  exact getUserByEmail_of_find hf1 hr

theorem getRoleByName_ok {roles : List Role} {n : String} {role : Role}
    (h : GetRoleByName roles n = Except.ok role) :
    roles.find? (fun r => r.roleName == n) = some role := by
  unfold GetRoleByName at h
  cases hq : roles.find? (fun r => r.roleName == n) <;> rw [hq] at h
  · simp at h
  · simp at h
    rw [h]

theorem getRoleByID_of_mem {roles : List Role} {role : Role} (hmem : role ∈ roles) :
    ∃ r2, GetRoleByID roles role.id = Except.ok r2 := by
  unfold GetRoleByID
  cases hq : roles.find? (fun r => r.id == role.id) with
  | some r2 => exact ⟨r2, rfl⟩
  | none =>
    exfalso
    have hiso : (roles.find? (fun r => r.id == role.id)).isSome :=
      List.find?_isSome.mpr ⟨role, hmem, by simp⟩
    rw [hq] at hiso
    simp at hiso

/-! ### State-effect lemmas for the handlers -/

theorem signUp_state_cases (st : DBState) (req : SignUpRequest) :
    (SignUp st req).2 = st ∨
      ∃ role, (SignUp st req).2
        = { st with users := st.users ++ [newUserRow st req.name req.email role req.department] } := by
  unfold SignUp
  cases hg : GetUserByEmail st req.email with
  | ok v => simp [hg]
  | error e =>
    cases e with
    | roleNotFound => simp [hg]
    | userNotFound =>
      unfold CreateUser
      cases hr : GetRoleByName st.roles req.role with
      | error e2 => simp [hg, hr]
      | ok role =>
        right
        refine ⟨role, ?_⟩
        simp [hg, hr]

theorem setNewPassword_state_cases (st : DBState) (req : SetNewPasswordRequest) :
    (SetNewPassword st req).2 = st ∨
      ∃ u, GetUserByEmail st req.email = Except.ok u ∧ u.needsNewPass = true ∧
        (SetNewPassword st req).2
          = UpdatePassword st req.email (bcryptGenerateFromPassword req.newPassword) := by
  unfold SetNewPassword
  cases hg : GetUserByEmail st req.email with
  | error e => simp [hg]
  | ok u =>
    cases hn : u.needsNewPass with
    | false => simp [hg, hn]
    | true =>
      right
      exact ⟨u, rfl, hn, by simp [hn]⟩

theorem active_stable_signUp (st : DBState) (E : String) (req : SignUpRequest)
    (h : Active st E = true) : Active (SignUp st req).2 E = true := by
  rcases signUp_state_cases st req with heq | ⟨role, heq⟩
  · rw [heq]; exact h
  · rw [heq]
    unfold Active at h ⊢
    cases hg : GetUserByEmail st E with
    | error e => rw [hg] at h; simp at h
    | ok u =>
      rw [hg] at h
      rw [getUser_append_of_found _ hg]
      exact h

theorem active_stable_setNewPassword (st : DBState) (E : String)
    (req : SetNewPasswordRequest) (h : Active st E = true) :
    Active (SetNewPassword st req).2 E = true := by
  rcases setNewPassword_state_cases st req with heq | ⟨u, hg, hn, heq⟩
  · rw [heq]; exact h
  · rw [heq]
    by_cases he : req.email = E
    · exfalso
      rw [he] at hg
      have hA : u.needsNewPass = false := by
        unfold Active at h
        rw [hg] at h
        simpa using h
      rw [hn] at hA
      simp at hA
    · unfold Active at h ⊢
      rw [getUser_updatePassword_other _ he]
      exact h

/-! ### Behaviour lemmas for Login and SetNewPassword -/

theorem login_empty_password (st : DBState) (now : Nat) (E : String) :
    Login st now { email := E, password := "" } = LoginResult.httpError 400 "Invalid input" := by
  unfold Login
  simp

theorem login_not_found {st : DBState} {E P : String} (now : Nat) (hP : P ≠ "")
    (hget : GetUserByEmail st E = Except.error StoreError.userNotFound) :
    Login st now { email := E, password := P }
      = LoginResult.httpError 404 "User not found" := by
  unfold Login
  simp [beq_eq_false_iff_ne.mpr hP, hget]

theorem login_pending {st : DBState} {E P : String} {u : User} (now : Nat) (hP : P ≠ "")
    (hget : GetUserByEmail st E = Except.ok u) (hpend : u.needsNewPass = true) :
    Login st now { email := E, password := P }
      = LoginResult.httpError 401 "User needs to set a new password" := by
  unfold Login
  simp [beq_eq_false_iff_ne.mpr hP, hget, hpend]

theorem login_ok {st : DBState} {E P : String} {u : User} (now : Nat) (hP : P ≠ "")
    (hget : GetUserByEmail st E = Except.ok u) (hactive : u.needsNewPass = false)
    (hcmp : bcryptCompareHashAndPassword u.password P = true) :
    Login st now { email := E, password := P }
      = LoginResult.ok (GenerateJWT now u.email u.role.roleName) u.name u.role.roleName := by
  unfold Login
  simp [beq_eq_false_iff_ne.mpr hP, hget, hactive, hcmp]

theorem login_wrong_password {st : DBState} {E P : String} {u : User} (now : Nat)
    (hP : P ≠ "") (hget : GetUserByEmail st E = Except.ok u)
    (hactive : u.needsNewPass = false)
    (hcmp : bcryptCompareHashAndPassword u.password P = false) :
    Login st now { email := E, password := P }
      = LoginResult.httpError 401 "Invalid password" := by
  unfold Login
  simp [beq_eq_false_iff_ne.mpr hP, hget, hactive, hcmp]

theorem setNewPassword_pending {st : DBState} {E : String} {u : User} (P : String)
    (hget : GetUserByEmail st E = Except.ok u) (hpend : u.needsNewPass = true) :
    SetNewPassword st { email := E, newPassword := P }
      = ((200, "Password set successfully"),
          UpdatePassword st E (bcryptGenerateFromPassword P)) := by
  unfold SetNewPassword
  simp [hget, hpend]

theorem setNewPassword_conflict {st : DBState} {E : String} {u : User} (P : String)
    (hget : GetUserByEmail st E = Except.ok u) (hactive : u.needsNewPass = false) :
    SetNewPassword st { email := E, newPassword := P }
      = ((409, "Password already set. Use login instead."), st) := by
  unfold SetNewPassword
  simp [hget, hactive]

/-- The User value read back after EstablishPassword stored the hash of P:
the hash replaces the password and needsNewPass becomes false. -/
def establishedUser (u : User) (P : String) : User :=
  { u with password := bcryptGenerateFromPassword P, needsNewPass := false }

theorem getUser_after_establish {st : DBState} {E : String} {u : User} (P : String)
    (hget : GetUserByEmail st E = Except.ok u) :
    GetUserByEmail (UpdatePassword st E (bcryptGenerateFromPassword P)) E
      = Except.ok (establishedUser u P) := by
  have h := getUser_updatePassword_self hget (bcryptGenerateFromPassword P)
  rw [show (bcryptGenerateFromPassword P == "") = false from
    beq_eq_false_iff_ne.mpr (bcryptGenerateFromPassword_ne_empty P)] at h
  exact h

/-! ### Claims -/

/-- C1 (counterexample): the claim quantifies over every password and fails at
the empty string: on the PENDING account, EstablishPassword with the empty
password succeeds, yet the subsequent Authenticate with that same password
is rejected 400 Invalid input before any verification and returns no
token. -/
theorem c1_counterexample :
    (SetNewPassword stPending { email := aliceEmail, newPassword := emptyPw }).1
        = (200, "Password set successfully") ∧
    Login (SetNewPassword stPending { email := aliceEmail, newPassword := emptyPw }).2 0
        { email := aliceEmail, password := emptyPw }
      = LoginResult.httpError 400 "Invalid input" := ⟨rfl, rfl⟩

/-- C1 (amended): for every PENDING account and every non-empty password P,
EstablishPassword(E, P) succeeds and transitions the account to ACTIVE,
such that a subsequent Authenticate(E, P) succeeds and returns a token,
and Authenticate(E, Q) for any non-empty Q ≠ P fails 401 with
InvalidCredentials; an empty password is instead rejected 400 by input
validation before verification. -/
theorem c1_establish_then_authenticate (st : DBState) (E P : String) (u : User)
    (hget : GetUserByEmail st E = Except.ok u)
    (hpending : u.needsNewPass = true) (hP : P ≠ "") :
    (SetNewPassword st { email := E, newPassword := P }).1
        = (200, "Password set successfully") ∧
    Active (SetNewPassword st { email := E, newPassword := P }).2 E = true ∧
    (∀ now, Login (SetNewPassword st { email := E, newPassword := P }).2 now
        { email := E, password := P }
      = LoginResult.ok (GenerateJWT now u.email u.role.roleName) u.name u.role.roleName) ∧
    (∀ now Q, Q ≠ "" → Q ≠ P →
      Login (SetNewPassword st { email := E, newPassword := P }).2 now
          { email := E, password := Q }
        = LoginResult.httpError 401 "Invalid password") := by
  have hset := setNewPassword_pending P hget hpending
  have hst1 : (SetNewPassword st { email := E, newPassword := P }).2
      = UpdatePassword st E (bcryptGenerateFromPassword P) := by rw [hset]
  have hget1 := getUser_after_establish P hget
  refine ⟨by rw [hset], ?_, ?_, ?_⟩
  · rw [hst1]
    unfold Active
    rw [hget1]
    rfl
  · intro now
    rw [hst1]
    exact login_ok (u := establishedUser u P) now hP hget1 rfl (bcryptCompare_gen_self P)
  · intro now Q hQ hQP
    rw [hst1]
    exact login_wrong_password (u := establishedUser u P) now hQ hget1 rfl
      (bcryptCompare_gen_ne hQP)

/-- C1 (witness): the amended theorem at the concrete pending account with
password secret1, checked against wrong at issue time 0. -/
theorem c1_witness :
    (GetUserByEmail stPending aliceEmail = Except.ok aliceUser ∧
      aliceUser.needsNewPass = true ∧ secretPw ≠ "") ∧
    (SetNewPassword stPending { email := aliceEmail, newPassword := secretPw }).1
        = (200, "Password set successfully") ∧
    Active (SetNewPassword stPending
        { email := aliceEmail, newPassword := secretPw }).2 aliceEmail = true ∧
    Login (SetNewPassword stPending { email := aliceEmail, newPassword := secretPw }).2 0
        { email := aliceEmail, password := secretPw }
      = LoginResult.ok (GenerateJWT 0 aliceUser.email aliceUser.role.roleName)
          aliceUser.name aliceUser.role.roleName ∧
    Login (SetNewPassword stPending { email := aliceEmail, newPassword := secretPw }).2 0
        { email := aliceEmail, password := wrongPw }
      = LoginResult.httpError 401 "Invalid password" := by
  have h := c1_establish_then_authenticate stPending aliceEmail secretPw aliceUser
    rfl rfl (by decide)
  exact ⟨⟨rfl, rfl, by decide⟩, h.1, h.2.1, h.2.2.1 0, h.2.2.2 0 wrongPw (by decide) (by decide)⟩

/-- C2: once an account is ACTIVE, no sequence of requests to the core
(SignUp, CheckUser, SetNewPassword, Login) ever returns it to PENDING: it
is still ACTIVE after any such sequence. -/
theorem c2_active_irreversible (st : DBState) (E : String) (h : Active st E = true)
    (ops : List Op) : Active (List.foldl stepState st ops) E = true := by
  induction ops generalizing st with
  | nil => exact h
  | cons op rest ih =>
    rw [List.foldl_cons]
    apply ih
    cases op with
    | signUp req => exact active_stable_signUp st E req h
    | checkUser e => exact h
    | setNewPassword req => exact active_stable_setNewPassword st E req h
    | login now c => exact h

/-- Concrete request sequence touching every endpoint, aimed at the active
account. -/
def opsAttack : List Op :=
  [Op.setNewPassword { email := bobEmail, newPassword := wrongPw },
   Op.signUp { name := "Bob", email := bobEmail, role := "Employee", department := "HR" },
   Op.login 0 { email := bobEmail, password := wrongPw },
   Op.checkUser bobEmail,
   Op.setNewPassword { email := aliceEmail, newPassword := secretPw }]

/-- C2 (witness): the theorem at the concrete ACTIVE account and a sequence
containing every kind of request. -/
theorem c2_witness :
    Active stActive bobEmail = true ∧
    Active (List.foldl stepState stActive opsAttack) bobEmail = true :=
  ⟨rfl, c2_active_irreversible stActive bobEmail rfl opsAttack⟩

/-- C3 (counterexample): on the PENDING account, Authenticate with the empty
password is rejected 400 Invalid input, not 401 Unauthorized: the claim
fails at the empty string it explicitly includes. -/
theorem c3_counterexample :
    CheckUser stPending aliceEmail = CheckUserResult.ok true ∧
    Login stPending 0 { email := aliceEmail, password := emptyPw }
      = LoginResult.httpError 400 "Invalid input" := ⟨rfl, rfl⟩

/-- C3 (amended): for every PENDING account, Authenticate fails for every
password: with 401 Unauthorized (StillPending) for every non-empty
password, and with 400 Invalid input for the empty string, which is
rejected by validation before the pending check. -/
theorem c3_pending_never_authenticates (st : DBState) (E : String) (u : User) (now : Nat)
    (hget : GetUserByEmail st E = Except.ok u) (hpending : u.needsNewPass = true) :
    (∀ P, P ≠ "" → Login st now { email := E, password := P }
        = LoginResult.httpError 401 "User needs to set a new password") ∧
    Login st now { email := E, password := "" }
      = LoginResult.httpError 400 "Invalid input" :=
  ⟨fun P hP => login_pending now hP hget hpending, login_empty_password st now E⟩

/-- C3 (witness): the amended theorem at the concrete pending account, with a
non-empty and the empty password. -/
theorem c3_witness :
    (GetUserByEmail stPending aliceEmail = Except.ok aliceUser ∧
      aliceUser.needsNewPass = true) ∧
    Login stPending 0 { email := aliceEmail, password := wrongPw }
      = LoginResult.httpError 401 "User needs to set a new password" ∧
    Login stPending 0 { email := aliceEmail, password := "" }
      = LoginResult.httpError 400 "Invalid input" := by
  have h := c3_pending_never_authenticates stPending aliceEmail aliceUser 0 rfl rfl
  exact ⟨⟨rfl, rfl⟩, h.1 wrongPw (by decide), h.2⟩

/-- C4 (counterexample): with the empty string as the first password, the
first call succeeds and the second fails 409 as claimed, but the password
set by the first call does not verify afterwards: Authenticate rejects it
400 and issues no token, so the claim as stated fails. -/
theorem c4_counterexample :
    (SetNewPassword stPending { email := aliceEmail, newPassword := emptyPw }).1
        = (200, "Password set successfully") ∧
    (SetNewPassword
        (SetNewPassword stPending { email := aliceEmail, newPassword := emptyPw }).2
        { email := aliceEmail, newPassword := emptyPw }).1
      = (409, "Password already set. Use login instead.") ∧
    Login (SetNewPassword
        (SetNewPassword stPending { email := aliceEmail, newPassword := emptyPw }).2
        { email := aliceEmail, newPassword := emptyPw }).2 0
        { email := aliceEmail, password := emptyPw }
      = LoginResult.httpError 400 "Invalid input" := ⟨rfl, rfl, rfl⟩

/-- C4 (amended): EstablishPassword twice on the same PENDING account: the
first call succeeds; a second call with any password fails 409 Conflict
and leaves the database state — hence the stored hash — unchanged; and
when the first password is non-empty it still verifies via Authenticate
after the failed second call. -/
theorem c4_double_establish (st : DBState) (E P Q : String) (u : User)
    (hget : GetUserByEmail st E = Except.ok u)
    (hpending : u.needsNewPass = true) (hP : P ≠ "") :
    (SetNewPassword st { email := E, newPassword := P }).1
        = (200, "Password set successfully") ∧
    SetNewPassword (SetNewPassword st { email := E, newPassword := P }).2
        { email := E, newPassword := Q }
      = ((409, "Password already set. Use login instead."),
          (SetNewPassword st { email := E, newPassword := P }).2) ∧
    (∀ now, Login (SetNewPassword
          (SetNewPassword st { email := E, newPassword := P }).2
          { email := E, newPassword := Q }).2 now
        { email := E, password := P }
      = LoginResult.ok (GenerateJWT now u.email u.role.roleName) u.name u.role.roleName) := by
  have hset := setNewPassword_pending P hget hpending
  have hst1 : (SetNewPassword st { email := E, newPassword := P }).2
      = UpdatePassword st E (bcryptGenerateFromPassword P) := by rw [hset]
  have hget1 := getUser_after_establish P hget
  have hconf : SetNewPassword (SetNewPassword st { email := E, newPassword := P }).2
      { email := E, newPassword := Q }
      = ((409, "Password already set. Use login instead."),
          (SetNewPassword st { email := E, newPassword := P }).2) := by
    rw [hst1]
    exact setNewPassword_conflict Q hget1 rfl
  refine ⟨by rw [hset], hconf, ?_⟩
  intro now
  rw [hconf, hst1]
  exact login_ok (u := establishedUser u P) now hP hget1 rfl (bcryptCompare_gen_self P)

/-- C4 (witness): the amended theorem at the concrete pending account, first
password secret1, second password wrong, issue time 0. -/
theorem c4_witness :
    (GetUserByEmail stPending aliceEmail = Except.ok aliceUser ∧
      aliceUser.needsNewPass = true ∧ secretPw ≠ "") ∧
    (SetNewPassword stPending { email := aliceEmail, newPassword := secretPw }).1
        = (200, "Password set successfully") ∧
    SetNewPassword (SetNewPassword stPending
        { email := aliceEmail, newPassword := secretPw }).2
        { email := aliceEmail, newPassword := wrongPw }
      = ((409, "Password already set. Use login instead."),
          (SetNewPassword stPending { email := aliceEmail, newPassword := secretPw }).2) ∧
    Login (SetNewPassword (SetNewPassword stPending
          { email := aliceEmail, newPassword := secretPw }).2
          { email := aliceEmail, newPassword := wrongPw }).2 0
        { email := aliceEmail, password := secretPw }
      = LoginResult.ok (GenerateJWT 0 aliceUser.email aliceUser.role.roleName)
          aliceUser.name aliceUser.role.roleName := by
  have h := c4_double_establish stPending aliceEmail secretPw wrongPw aliceUser
    rfl rfl (by decide)
  exact ⟨⟨rfl, rfl, by decide⟩, h.1, h.2.1, h.2.2 0⟩

/-- C5: for every email not previously registered (the directory lookup
yields ErrUserNotFound) and a resolvable role, SignUp succeeds with 201
and creates the account with a NULL password, so that an immediately
following CheckCredentialState reports needsNewPass = true. -/
theorem c5_signup_creates_pending (st : DBState) (req : SignUpRequest) (role : Role)
    (hnew : GetUserByEmail st req.email = Except.error StoreError.userNotFound)
    (hrole : GetRoleByName st.roles req.role = Except.ok role) :
    (SignUp st req).1 = (201, "User created successfully") ∧
    (∃ u, GetUserByEmail (SignUp st req).2 req.email = Except.ok u ∧
      u.password = "" ∧ u.needsNewPass = true) ∧
    CheckUser (SignUp st req).2 req.email = CheckUserResult.ok true := by
  have hfind : st.users.find? (fun r => r.email == req.email) = none :=
    getUserByEmail_userNotFound_iff.mp hnew
  have hsign : SignUp st req = ((201, "User created successfully"),
      { st with users := st.users
          ++ [newUserRow st req.name req.email role req.department] }) := by
    unfold SignUp CreateUser
    simp [hnew, hrole]
  have hst1 : (SignUp st req).2
      = { st with users := st.users
          ++ [newUserRow st req.name req.email role req.department] } := by
    rw [hsign]
  have hf1 : (st.users ++ [newUserRow st req.name req.email role req.department]).find?
      (fun r => r.email == req.email)
      = some (newUserRow st req.name req.email role req.department) := by
    rw [List.find?_append, hfind]
    simp [newUserRow]
  have hmem : role ∈ st.roles := List.mem_of_find?_eq_some (getRoleByName_ok hrole)
  obtain ⟨role2, hrid⟩ := getRoleByID_of_mem hmem
  have hget2 : GetUserByEmail (SignUp st req).2 req.email
      = Except.ok (mkUser (newUserRow st req.name req.email role req.department) role2) := by
    rw [hst1]
    exact getUserByEmail_of_find hf1 hrid
  refine ⟨by rw [hsign], ⟨_, hget2, rfl, rfl⟩, ?_⟩
  unfold CheckUser
  rw [hget2]
  rfl

/-- C5 (witness): the theorem at the empty directory and the concrete
sign-up request. -/
theorem c5_witness :
    (GetUserByEmail stEmpty aliceEmail = Except.error StoreError.userNotFound ∧
      GetRoleByName stEmpty.roles aliceSignUpReq.role = Except.ok employeeRole) ∧
    (SignUp stEmpty aliceSignUpReq).1 = (201, "User created successfully") ∧
    (∃ u, GetUserByEmail (SignUp stEmpty aliceSignUpReq).2 aliceEmail = Except.ok u ∧
      u.password = "" ∧ u.needsNewPass = true) ∧
    CheckUser (SignUp stEmpty aliceSignUpReq).2 aliceEmail = CheckUserResult.ok true := by
  have h := c5_signup_creates_pending stEmpty aliceSignUpReq employeeRole rfl rfl
  exact ⟨⟨rfl, rfl⟩, h.1, h.2.1, h.2.2⟩

/-- C6: SignUp on an already-registered email fails 409 Conflict and returns
the state unchanged: no create or update is issued, so the existing
account's role, department and password state are untouched. -/
theorem c6_signup_conflict_frame (st : DBState) (req : SignUpRequest) (u : User)
    (hexists : GetUserByEmail st req.email = Except.ok u) :
    SignUp st req = ((409, "User already exists"), st) := by
  unfold SignUp
  simp [hexists]

/-- A sign-up request re-using the already registered email. -/
def bobSignUpReq : SignUpRequest :=
  { name := "Robert", email := bobEmail, role := "Employee", department := "Sales" }

/-- C6 (witness): the theorem at the concrete registered account. -/
theorem c6_witness :
    GetUserByEmail stActive bobEmail = Except.ok bobUser ∧
    SignUp stActive bobSignUpReq = ((409, "User already exists"), stActive) :=
  ⟨rfl, c6_signup_conflict_frame stActive bobSignUpReq bobUser rfl⟩

/-- C7: Authenticate distinguishes the two failure causes in the response:
for a well-formed (non-empty) password, a non-existent account yields 404
User not found, while an existing ACTIVE account with a non-matching
password yields 401 Invalid password, and the two responses are distinct,
never swapped or merged. -/
theorem c7_login_distinguishes (st : DBState) (now : Nat) (E P : String) (hP : P ≠ "") :
    (GetUserByEmail st E = Except.error StoreError.userNotFound →
      Login st now { email := E, password := P }
        = LoginResult.httpError 404 "User not found") ∧
    (∀ u, GetUserByEmail st E = Except.ok u → u.needsNewPass = false →
      bcryptCompareHashAndPassword u.password P = false →
      Login st now { email := E, password := P }
        = LoginResult.httpError 401 "Invalid password") ∧
    LoginResult.httpError 404 "User not found"
      ≠ LoginResult.httpError 401 "Invalid password" :=
  ⟨fun hget => login_not_found now hP hget,
   fun _ hget ha hc => login_wrong_password now hP hget ha hc,
   by decide⟩

/-- C7 (witness): the theorem at the concrete state holding only the active
account: an unknown email yields 404, a wrong password yields 401. -/
theorem c7_witness :
    wrongPw ≠ "" ∧
    (GetUserByEmail stActive aliceEmail = Except.error StoreError.userNotFound ∧
      Login stActive 0 { email := aliceEmail, password := wrongPw }
        = LoginResult.httpError 404 "User not found") ∧
    (GetUserByEmail stActive bobEmail = Except.ok bobUser ∧
      bobUser.needsNewPass = false ∧
      bcryptCompareHashAndPassword bobUser.password wrongPw = false ∧
      Login stActive 0 { email := bobEmail, password := wrongPw }
        = LoginResult.httpError 401 "Invalid password") := by
  have h1 := c7_login_distinguishes stActive 0 aliceEmail wrongPw (by decide)
  have h2 := c7_login_distinguishes stActive 0 bobEmail wrongPw (by decide)
  exact ⟨by decide, ⟨rfl, h1.1 rfl⟩,
    ⟨rfl, rfl, by decide, h2.2.1 bobUser rfl rfl (by decide)⟩⟩

/-- C8 (token issuer modelled from the spec): on successful Authenticate the
issued token carries exactly the claims email and roleName with the fixed
expiration now + 24 hours, and the response returns the token together
with the account's display name and role name. -/
theorem c8_token_claims (st : DBState) (now : Nat) (creds : LoginCredentials) (u : User)
    (hP : creds.password ≠ "")
    (hget : GetUserByEmail st creds.email = Except.ok u)
    (hactive : u.needsNewPass = false)
    (hcmp : bcryptCompareHashAndPassword u.password creds.password = true) :
    Login st now creds
      = LoginResult.ok
          { email := u.email, role := u.role.roleName, exp := now + 24 * 60 * 60 }
          u.name u.role.roleName :=
  login_ok now hP hget hactive hcmp

/-- C8 (witness): the theorem at the concrete active account at issue time 5. -/
theorem c8_witness :
    (secretPw ≠ "" ∧ GetUserByEmail stActive bobEmail = Except.ok bobUser ∧
      bobUser.needsNewPass = false ∧
      bcryptCompareHashAndPassword bobUser.password secretPw = true) ∧
    Login stActive 5 { email := bobEmail, password := secretPw }
      = LoginResult.ok
          { email := bobUser.email, role := bobUser.role.roleName, exp := 5 + 24 * 60 * 60 }
          bobUser.name bobUser.role.roleName :=
  ⟨⟨by decide, rfl, rfl, by decide⟩,
    c8_token_claims stActive 5 { email := bobEmail, password := secretPw } bobUser
      (by decide) rfl rfl (by decide)⟩

/-- C9: every User returned by GetUserByEmail has needsNewPass equal to the
emptiness of the password it carries (a NULL column reads back as the
empty string), and the persisted needs_new_pass column is discarded:
rewriting that column arbitrarily in every row changes no read result. -/
theorem c9_needsNewPass_recomputed (st : DBState) (E : String) (u : User)
    (hget : GetUserByEmail st E = Except.ok u) :
    u.needsNewPass = (u.password == "") ∧
    ∀ f, GetUserByEmail (setNeedsNewPassCols f st) E = Except.ok u := by
  rcases getUserByEmail_ok_iff.mp hget with ⟨row, role, hf, hr, hu⟩
  constructor
  · rw [hu]
    cases hp : row.password with
    | none => simp [mkUser, nullStringValue, hp]
    | some s => simp [mkUser, nullStringValue, hp]
  · intro f
    have hmap : ((st.users.map (fun r => { r with needsNewPassCol := f r })).find?
        (fun r => r.email == E))
        = (st.users.find? (fun r => r.email == E)).map
            (fun r => { r with needsNewPassCol := f r }) := by
      rw [List.find?_map]
      have hp : ((fun r : UserRow => r.email == E)
          ∘ (fun r : UserRow => { r with needsNewPassCol := f r }))
          = fun r : UserRow => r.email == E := by
        funext r
        rfl
      rw [hp]
    have hf1 : ((setNeedsNewPassCols f st).users.find? (fun r => r.email == E))
        = some { row with needsNewPassCol := f row } := by
      unfold setNeedsNewPassCols
      rw [hmap, hf]
      rfl
    have hres : GetUserByEmail (setNeedsNewPassCols f st) E
        = Except.ok (mkUser { row with needsNewPassCol := f row } role) :=
      getUserByEmail_of_find hf1 hr
    rw [hres, hu]
    rfl

/-- An account whose persisted needs_new_pass column disagrees with its
password column: the password is set but the column still says true. -/
def carolEmail : String := "c@x.com"

def carolRow : UserRow :=
  { id := 3, name := "Carol", email := carolEmail,
    password := some (bcryptGenerateFromPassword secretPw),
    roleId := 1, department := "IT", needsNewPassCol := true }

def stCarol : DBState := { users := [carolRow], roles := [employeeRole] }

def carolUser : User := mkUser carolRow employeeRole

/-- C9 (witness): the theorem at an account whose stored column disagrees
with its password, with the column of every row flipped. -/
theorem c9_witness :
    GetUserByEmail stCarol carolEmail = Except.ok carolUser ∧
    carolUser.needsNewPass = (carolUser.password == "") ∧
    GetUserByEmail (setNeedsNewPassCols (fun r => !r.needsNewPassCol) stCarol) carolEmail
      = Except.ok carolUser := by
  have h := c9_needsNewPass_recomputed stCarol carolEmail carolUser rfl
  exact ⟨rfl, h.1, h.2 (fun r => !r.needsNewPassCol)⟩

/-- C10: EstablishPassword performs no emptiness check: on a PENDING account
the empty password is accepted, the bcrypt hash of the empty string is
stored and the account becomes ACTIVE, yet no Authenticate call on it can
ever succeed — an empty login password is rejected 400 before any
verification and every non-empty one fails the hash comparison with 401. -/
theorem c10_empty_password_lockout (st : DBState) (E : String) (u : User)
    (hget : GetUserByEmail st E = Except.ok u) (hpending : u.needsNewPass = true) :
    (SetNewPassword st { email := E, newPassword := emptyPw }).1
        = (200, "Password set successfully") ∧
    GetUserByEmail (SetNewPassword st { email := E, newPassword := emptyPw }).2 E
      = Except.ok (establishedUser u emptyPw) ∧
    Active (SetNewPassword st { email := E, newPassword := emptyPw }).2 E = true ∧
    (∀ now P, Login (SetNewPassword st { email := E, newPassword := emptyPw }).2 now
          { email := E, password := P }
        = LoginResult.httpError 400 "Invalid input" ∨
      Login (SetNewPassword st { email := E, newPassword := emptyPw }).2 now
          { email := E, password := P }
        = LoginResult.httpError 401 "Invalid password") := by
  have hset := setNewPassword_pending emptyPw hget hpending
  have hst1 : (SetNewPassword st { email := E, newPassword := emptyPw }).2
      = UpdatePassword st E (bcryptGenerateFromPassword emptyPw) := by rw [hset]
  have hget1 := getUser_after_establish emptyPw hget
  refine ⟨by rw [hset], by rw [hst1]; exact hget1, ?_, ?_⟩
  · rw [hst1]
    unfold Active
    rw [hget1]
    rfl
  · intro now P
    by_cases hPe : P = ""
    · left
      rw [hPe, hst1]
      exact login_empty_password _ now E
    · right
      rw [hst1]
      exact login_wrong_password (u := establishedUser u emptyPw) now hPe hget1 rfl
        (bcryptCompare_gen_ne hPe)

/-- C10 (witness): the theorem at the concrete pending account, checked with
the non-empty password wrong at issue time 0. -/
theorem c10_witness :
    (GetUserByEmail stPending aliceEmail = Except.ok aliceUser ∧
      aliceUser.needsNewPass = true) ∧
    (SetNewPassword stPending { email := aliceEmail, newPassword := emptyPw }).1
        = (200, "Password set successfully") ∧
    GetUserByEmail
        (SetNewPassword stPending { email := aliceEmail, newPassword := emptyPw }).2
        aliceEmail
      = Except.ok (establishedUser aliceUser emptyPw) ∧
    (Login (SetNewPassword stPending { email := aliceEmail, newPassword := emptyPw }).2 0
          { email := aliceEmail, password := wrongPw }
        = LoginResult.httpError 400 "Invalid input" ∨
      Login (SetNewPassword stPending { email := aliceEmail, newPassword := emptyPw }).2 0
          { email := aliceEmail, password := wrongPw }
        = LoginResult.httpError 401 "Invalid password") := by
  have h := c10_empty_password_lockout stPending aliceEmail aliceUser rfl rfl
  exact ⟨⟨rfl, rfl⟩, h.1, h.2.1, h.2.2.2 0 wrongPw⟩

end ERP
